import Mathlib

/-!
Verification of the map-generation pipeline of the world-map-generator
repository.  The TypeScript sources under src/app/utils/mapgen are shallowly
embedded: JavaScript numbers are modelled by the exact rationals, the ambient
Math.random stream is an explicit parameter (a function from draw index to a
rational), and the external libraries (simplex-noise, Delaunator, the
transcendental Math functions) are abstracted as explicit oracle parameters,
since their code is not part of this repository.  Arrays become lists read
with getD, and the stable Array.prototype.sort of the JS engine is modelled
by a stable insertion sort.  The priority queue of the flatqueue package is
modelled by a stable sorted list (pop returns a value of minimal priority,
ties resolved by insertion order, matching flatqueue on the concrete inputs
used below).
-/

namespace WorldMap

/-- Wrap an integer to a signed 32-bit value, as the JS bitwise-or-with-zero
coercion does. -/
def toInt32 (x : ℤ) : ℤ :=
  ((x + 2 ^ 31) % 2 ^ 32) - 2 ^ 31

/-- Unsigned 32-bit view of an integer, as the JS unsigned shift coercion. -/
def toUint32 (x : ℤ) : ℕ :=
  (x % 2 ^ 32).toNat

/-- Embedding of hashSeed from random.ts: the left-shift-5-minus-self string
hash, wrapped to 32 bits after every character. -/
def hashSeed (seed : String) : ℤ :=
  seed.data.foldl (fun hash c => toInt32 (toInt32 (hash * 2 ^ 5) - hash + c.toNat)) 0

/-- One xorshift step of the RNG of createRNG in random.ts, acting on the
unsigned 32-bit view of the state (the signed/unsigned distinction of the JS
code does not change the bits). -/
def rngStep (u : ℕ) : ℕ :=
  let a := (u ^^^ (u * 2 ^ 13)) % 2 ^ 32
  let b := a ^^^ (a / 2 ^ 17)
  (b ^^^ (b * 2 ^ 5)) % 2 ^ 32

/-- State of the createRNG generator after n+1 update steps (the JS closure
updates the state before producing each value). -/
def rngState (seed : String) : ℕ → ℕ
  | 0 => rngStep (toUint32 (hashSeed seed))
  | n + 1 => rngStep (rngState seed n)

/-- Value produced by the n-th call of the createRNG closure:
((state >>> 0) % 2147483647) / 2147483647. -/
def rngStream (seed : String) (n : ℕ) : ℚ :=
  ((rngState seed n) % 2147483647 : ℕ) / 2147483647

/-- Oracles for the Math functions that have no exact rational meaning.
Concrete theorems below only ever use them at arguments where the intended
value is rational and supply that value. -/
structure MathOracle where
  sqrt : ℚ → ℚ
  pow : ℚ → ℚ → ℚ
  log : ℚ → ℚ
  cos : ℚ → ℚ
  sin : ℚ → ℚ
  pi : ℚ

/-- Oracle for the seeded simplex noise of createSeededNoise2D: the external
simplex-noise package, keyed by the seed string it was created from. -/
def NoiseOracle : Type :=
  String → ℚ → ℚ → ℚ

/-- Ambient Math.random draws, indexed by the number of draws made so far. -/
def AmbientStream : Type :=
  ℕ → ℚ

/-- Lighting sub-record of MapConfig (types.ts). -/
structure LightingConfig where
  enabled : Bool
  azimuth : ℚ
  angle : ℚ
  intensity : ℚ
  deriving DecidableEq

/-- Embedding of the MapConfig record of types.ts. -/
structure MapConfig where
  seed : String
  width : ℕ
  height : ℕ
  seaLevel : ℚ
  biomeDensity : ℚ
  mountainFrequency : ℚ
  hillFrequency : ℚ
  islandFrequency : ℚ
  pointDeviation : ℚ
  oceanRatio : ℚ
  jaggedness : ℚ
  mountainHeight : ℚ
  windAngleDeg : ℚ
  raininess : ℚ
  rainShadow : ℚ
  evaporation : ℚ
  riverWidth : ℚ
  rivers : ℚ
  riverMinFlow : ℚ
  showVoronoi : Bool
  lighting : LightingConfig
  deriving DecidableEq

/-- A 2-D point (types.ts Point). -/
structure Point where
  x : ℚ
  y : ℚ
  deriving DecidableEq, Repr

/-- Result of generatePoints (types.ts PointsData). -/
structure PointsData where
  points : List Point
  mountainPoints : List Point
  deriving DecidableEq, Repr

/-- Output of the external Delaunator library: the triangle vertex list and
the halfedge table. -/
structure DelaunayOut where
  triangles : List ℕ
  halfedges : List ℤ
  deriving DecidableEq

/-- Oracle for the external Delaunator library, mapping the flat coordinate
list to a triangulation. -/
def DelaunatorOracle : Type :=
  List ℚ → DelaunayOut

/-- Embedding of the VoronoiMesh record built by createMesh (types.ts),
keeping the fields the pipeline stages read. -/
structure VoronoiMesh where
  points : List ℚ
  triangles : List ℕ
  halfedges : List ℤ
  numPoints : ℕ
  numTriangles : ℕ
  numHalfedges : ℕ
  is_boundary_t : List Bool
  neighbors : List (List ℤ)
  centers : List Point
  width : ℚ
  height : ℚ
  deriving DecidableEq

/-- Centroid x coordinate of triangle t (the x_of_t accessor). -/
def VoronoiMesh.x_of_t (m : VoronoiMesh) (t : ℕ) : ℚ :=
  (m.centers.getD t ⟨0, 0⟩).x

/-- Centroid y coordinate of triangle t (the y_of_t accessor). -/
def VoronoiMesh.y_of_t (m : VoronoiMesh) (t : ℕ) : ℚ :=
  (m.centers.getD t ⟨0, 0⟩).y

/-- Boundary flag of triangle t, read like is_boundary_t[t]. -/
def VoronoiMesh.boundary (m : VoronoiMesh) (t : ℕ) : Bool :=
  m.is_boundary_t.getD t false

/-- Neighbor slot list of triangle t, read like neighbors[t]. -/
def VoronoiMesh.nbrs (m : VoronoiMesh) (t : ℕ) : List ℤ :=
  m.neighbors.getD t []

/-- Precalculated noise data (types.ts NoiseData), kept as index functions
standing for the four Float32Array(1024) buffers of precalculateNoise. -/
structure NoiseData where
  elevation : ℕ → ℚ
  moisture : ℕ → ℚ
  waterNoise : ℕ → ℚ
  roughness : ℕ → ℚ

/-- River path record (types.ts RiverPath). -/
structure RiverPath where
  triangles : List ℕ
  sourceTriangle : ℕ
  flow : ℚ
  deriving DecidableEq

/-- Result record of calculateFlowAccumulation. -/
structure FlowResult where
  flow_t : List ℚ
  riverPaths : List RiverPath
  deriving DecidableEq

/-- Output record of generateMap (types.ts MapData). -/
structure MapData where
  width : ℕ
  height : ℕ
  elevation : List (List ℚ)
  moisture : List (List ℚ)
  temperature : List (List ℚ)
  biomes : List (List ℕ)
  rivers : List (List ℚ)
  deriving DecidableEq

/-- Stable insertion of one element: x goes in front of the first resident y
for which lt y x fails.  Residents were earlier in the original list, so
elements comparing equal keep their original order. -/
def insertStable (lt : α → α → Bool) (x : α) : List α → List α
  | [] => [x]
  | y :: ys => if lt y x then y :: insertStable lt x ys else x :: y :: ys

/-- Stable sort used to model Array.prototype.sort with a comparator (the JS
engines the repository targets implement a stable sort); lt a b means a must
come strictly before b. -/
def sortStable (lt : α → α → Bool) : List α → List α
  | [] => []
  | x :: xs => insertStable lt x (sortStable lt xs)

/-- Priority-queue entry: a payload and its priority. -/
abbrev PQ := List (ℕ × ℚ)

/-- Model of FlatQueue.push: keep the list sorted by priority, inserting
after entries of equal priority. -/
def pqPush (q : PQ) (v : ℕ) (p : ℚ) : PQ :=
  match q with
  | [] => [(v, p)]
  | (w, r) :: rest => if r ≤ p then (w, r) :: pqPush rest v p else (v, p) :: (w, r) :: rest

/-- Model of FlatQueue.pop: remove and return an entry of minimal priority
(the head of the sorted list). -/
def pqPop (q : PQ) : Option (ℕ × PQ) :=
  match q with
  | [] => none
  | (v, _) :: rest => some (v, rest)

/-- Number of iterations of a JS loop for (v = start; v <= stop; v += step)
with positive step: the values are start + k * step for k below this count. -/
def leCount (start stop step : ℚ) : ℕ :=
  (⌊(stop - start) / step⌋ + 1).toNat

/-- Number of iterations of a JS loop for (v = start; v < stop; v += step)
with positive step. -/
def ltCount (start stop step : ℚ) : ℕ :=
  (⌈(stop - start) / step⌉).toNat

/-- Embedding of createBoundaryPoints (pointsGeneration.ts): bottom edge,
then right, top and left, with the exact loop values of the source. -/
def createBoundaryPoints (width height spacing : ℚ) : List Point :=
  let bottom := (List.range (leCount 0 width spacing)).map
    (fun k => Point.mk (k * spacing) 0)
  let right := (List.range (leCount spacing height spacing)).map
    (fun k => Point.mk width (spacing + k * spacing))
  let top := (List.range (leCount 0 (width - spacing) spacing)).map
    (fun k => Point.mk (width - spacing - k * spacing) height)
  let leftE := (List.range (leCount 0 (height - 2 * spacing) spacing)).map
    (fun k => Point.mk 0 (height - spacing - k * spacing))
  bottom ++ right ++ top ++ leftE

/-- Cell size computed at the top of generatePoints:
sqrt((width * height) / ((width * height * biomeDensity) / 30)).  No clamping
is applied to this quantity anywhere in the source. -/
def cellSizeOf (cfg : MapConfig) (mo : MathOracle) : ℚ :=
  mo.sqrt (((cfg.width : ℚ) * (cfg.height : ℚ)) /
    (((cfg.width : ℚ) * (cfg.height : ℚ) * cfg.biomeDensity) / 30))

/-- Interior loop of generatePoints: one grid site per entry, two ambient
Math.random draws for the jitter, and a third draw only when the mountain
noise product exceeds 0.7 (JS short-circuit of the conjunction).  Returns the
interior points, the mountain points, and the next ambient draw index. -/
def genPointsInterior (r : AmbientStream) (noise2D mountainNoise : ℚ → ℚ → ℚ)
    (cellSize pd width height mf : ℚ) :
    List (ℚ × ℚ) → ℕ → List Point × List Point × ℕ
  | [], i => ([], [], i)
  | (x, y) :: rest, i =>
    let offsetX := (r i * 2 - 1) * cellSize * pd
    let offsetY := (r (i + 1) * 2 - 1) * cellSize * pd
    let nx := (x + offsetX) / width
    let ny := (y + offsetY) / height
    let px := max (cellSize / 2) (min (width - cellSize / 2) (x + offsetX))
    let py := max (cellSize / 2) (min (height - cellSize / 2) (y + offsetY))
    let mountainValue :=
      (mountainNoise (nx * 4) (ny * 4) * (1/2) + 1/2) *
      (noise2D (nx * 8) (ny * 8) * (1/2) + 1/2)
    if 7/10 < mountainValue then
      let isMountain := r (i + 2) < mf
      let res := genPointsInterior r noise2D mountainNoise cellSize pd width height mf rest (i + 3)
      (Point.mk px py :: res.1,
       (if isMountain then [Point.mk px py] else []) ++ res.2.1, res.2.2)
    else
      let res := genPointsInterior r noise2D mountainNoise cellSize pd width height mf rest (i + 2)
      (Point.mk px py :: res.1, res.2.1, res.2.2)

/-- Embedding of generatePoints (pointsGeneration.ts).  The ambient stream r
models the unseeded Math.random calls of the source, starting at draw index
i; the function returns the produced PointsData together with the next draw
index (the JS Math.random stream is global and continues into later
stages). -/
def generatePoints (cfg : MapConfig) (mo : MathOracle) (no : NoiseOracle)
    (r : AmbientStream) (i : ℕ) : PointsData × ℕ :=
  let width := (cfg.width : ℚ)
  let height := (cfg.height : ℚ)
  let cellSize := cellSizeOf cfg mo
  let noise2D := no cfg.seed
  let mountainNoise := no (cfg.seed ++ "-mountains")
  let bpts := createBoundaryPoints width height (cellSize / 2)
  let ys := (List.range (ltCount (cellSize / 2) (height - cellSize / 2) cellSize)).map
    (fun k => cellSize / 2 + k * cellSize)
  let xs := (List.range (ltCount (cellSize / 2) (width - cellSize / 2) cellSize)).map
    (fun k => cellSize / 2 + k * cellSize)
  let sites := ys.flatMap (fun y => xs.map (fun x => (x, y)))
  let res := genPointsInterior r noise2D mountainNoise cellSize
    cfg.pointDeviation width height cfg.mountainFrequency sites i
  (⟨bpts ++ res.1, res.2.1⟩, res.2.2)

/-- Neighbor entry for halfedge e, as computed by the halfedge loop of
createMesh: floor(opposite / 3) when an opposite halfedge exists, else the
initial -1. -/
def neighborSlot (halfedges : List ℤ) (e : ℕ) : ℤ :=
  let o := halfedges.getD e (-1)
  if 0 ≤ o then o / 3 else -1

/-- The three neighbor slots of triangle t (createMesh). -/
def neighborsOfT (halfedges : List ℤ) (t : ℕ) : List ℤ :=
  [neighborSlot halfedges (3 * t), neighborSlot halfedges (3 * t + 1),
   neighborSlot halfedges (3 * t + 2)]

/-- Boundary flag of triangle t: some halfedge of t has no opposite. -/
def boundaryOfT (halfedges : List ℤ) (t : ℕ) : Bool :=
  decide (halfedges.getD (3 * t) (-1) < 0) ||
  decide (halfedges.getD (3 * t + 1) (-1) < 0) ||
  decide (halfedges.getD (3 * t + 2) (-1) < 0)

/-- Embedding of calculateTriangleCenter (mesh.ts): arithmetic mean of the
three vertex coordinates of triangle t. -/
def triangleCenter (triangles : List ℕ) (flat : List ℚ) (t : ℕ) : Point :=
  let p0 := triangles.getD (t * 3) 0 * 2
  let p1 := triangles.getD (t * 3 + 1) 0 * 2
  let p2 := triangles.getD (t * 3 + 2) 0 * 2
  ⟨(flat.getD p0 0 + flat.getD p1 0 + flat.getD p2 0) / 3,
   (flat.getD (p0 + 1) 0 + flat.getD (p1 + 1) 0 + flat.getD (p2 + 1) 0) / 3⟩

/-- Embedding of createMesh (mesh.ts), with the Delaunator library abstracted
as an oracle from the flat coordinate list to a triangulation. -/
def createMesh (pd : PointsData) (delaunator : DelaunatorOracle)
    (width height : ℚ) : VoronoiMesh :=
  let flatPoints := pd.points.flatMap (fun p => [p.x, p.y])
  let del := delaunator flatPoints
  let numTriangles := del.triangles.length / 3
  { points := flatPoints
    triangles := del.triangles
    halfedges := del.halfedges
    numPoints := pd.points.length
    numTriangles := numTriangles
    numHalfedges := del.halfedges.length
    is_boundary_t := (List.range numTriangles).map (fun t => boundaryOfT del.halfedges t)
    neighbors := (List.range numTriangles).map (fun t => neighborsOfT del.halfedges t)
    centers := (List.range numTriangles).map (fun t => triangleCenter del.triangles flatPoints t)
    width := width
    height := height }

/-- Embedding of precalculateNoise (terrain.ts): the four 1024-entry noise
buffers, kept as index functions.  The ridges noise generator of the source
is created but never read, so it does not appear here. -/
def precalculateNoise (cfg : MapConfig) (no : NoiseOracle) : NoiseData :=
  let noise2D := no cfg.seed
  let continentNoise := no (cfg.seed ++ "-continent")
  let moistureNoise := no (cfg.seed ++ "-moisture")
  let roughnessNoise := no (cfg.seed ++ "-roughness")
  { elevation := fun i =>
      let nx := (i : ℚ) / 1024
      noise2D (nx * 1) 0.5 * 0.4 + noise2D (nx * 2) 0.5 * 0.2 +
      noise2D (nx * 4) 0.5 * 0.1 + noise2D (nx * 8) 0.5 * 0.05
    moisture := fun i =>
      let nx := (i : ℚ) / 1024
      moistureNoise (nx * 1) 0.5 * 0.5 + moistureNoise (nx * 2) 0.5 * 0.3 +
      moistureNoise (nx * 4) 0.5 * 0.2
    waterNoise := fun i =>
      let nx := (i : ℚ) / 1024
      continentNoise (nx * 0.5) 0.5 * 0.6 + continentNoise (nx * 1) 0.5 * 0.3 +
      continentNoise (nx * 2) 0.5 * 0.1
    roughness := fun i =>
      let nx := (i : ℚ) / 1024
      roughnessNoise (nx * 2) 0.5 * 0.5 + roughnessNoise (nx * 4) 0.5 * 0.3 +
      roughnessNoise (nx * 8) 0.5 * 0.2 }

/-- Mountain-peak selection loop of calculateMountainDistance: a triangle is
a peak when it is not boundary, the two-octave mountain noise product exceeds
0.7 and the next draw of the seed-derived selection RNG is below
mountainFrequency * 0.1 (the draw happens only when the noise test passes,
mirroring the JS short-circuit).  Returns the peak list. -/
def mountainPeaks (mesh : VoronoiMesh) (cfg : MapConfig) (no : NoiseOracle) : List ℕ :=
  let mountainNoise := no (cfg.seed ++ "-mountains")
  let rng := rngStream (cfg.seed ++ "-mountain-selection")
  let step := fun (acc : List ℕ × ℕ) (t : ℕ) =>
    if mesh.boundary t then acc
    else
      let nx := mesh.x_of_t t / mesh.width
      let ny := mesh.y_of_t t / mesh.height
      let noiseValue :=
        (mountainNoise (nx * 2) (ny * 2) * 0.5 + 0.5) *
        (mountainNoise (nx * 4) (ny * 4) * 0.5 + 0.5)
      if 0.7 < noiseValue then
        (if rng acc.2 < cfg.mountainFrequency * 0.1 then acc.1 ++ [t] else acc.1, acc.2 + 1)
      else acc
  ((List.range mesh.numTriangles).foldl step ([], 0)).1

/-- Strict comparison of a finite value with a possibly infinite stored
distance (none models the Infinity fill of the source array). -/
def ltInf (a : ℚ) (b : Option ℚ) : Bool :=
  match b with
  | none => true
  | some c => decide (a < c)

/-- Neighbor relaxation of one popped triangle in the Dijkstra loop of
calculateMountainDistance.  Every non-skipped neighbor consumes one ambient
Math.random draw for the jaggedness perturbation of the edge length. -/
def mdScan (mesh : VoronoiMesh) (jaggedness : ℚ) (mo : MathOracle)
    (r : AmbientStream) (cur : ℕ) (visited : List Bool) :
    List ℤ → List (Option ℚ) → PQ → ℕ → List (Option ℚ) × PQ × ℕ
  | [], d, q, i => (d, q, i)
  | n :: rest, d, q, i =>
    if n < 0 ∨ visited.getD n.toNat false then
      mdScan mesh jaggedness mo r cur visited rest d q i
    else
      let nb := n.toNat
      let p1 := mesh.centers.getD cur ⟨0, 0⟩
      let p2 := mesh.centers.getD nb ⟨0, 0⟩
      let dx := p2.x - p1.x
      let dy := p2.y - p1.y
      let edgeLength := mo.sqrt (dx * dx + dy * dy)
      let noise := (r i - 0.5) * jaggedness * 0.2
      let distWithNoise := edgeLength * (1 + noise)
      match d.getD cur none with
      | none => mdScan mesh jaggedness mo r cur visited rest d q (i + 1)
      | some dc =>
        let newDist := dc + distWithNoise
        if ltInf newDist (d.getD nb none) then
          mdScan mesh jaggedness mo r cur visited rest (d.set nb (some newDist))
            (pqPush q nb newDist) (i + 1)
        else
          mdScan mesh jaggedness mo r cur visited rest d q (i + 1)

/-- Main Dijkstra loop of calculateMountainDistance, with explicit fuel (the
source loop terminates because every pop either skips a visited triangle or
marks a new one and pushes are bounded; the fuel passed by the caller covers
that bound). -/
def mdLoop (mesh : VoronoiMesh) (jaggedness : ℚ) (mo : MathOracle)
    (r : AmbientStream) :
    ℕ → List (Option ℚ) → List Bool → PQ → ℕ → List (Option ℚ) × ℕ
  | 0, d, _, _, i => (d, i)
  | fuel + 1, d, visited, q, i =>
    match pqPop q with
    | none => (d, i)
    | some (cur, q2) =>
      if visited.getD cur false then mdLoop mesh jaggedness mo r fuel d visited q2 i
      else
        let visited2 := visited.set cur true
        let res := mdScan mesh jaggedness mo r cur visited2 (mesh.nbrs cur) d q2 i
        mdLoop mesh jaggedness mo r fuel res.1 visited2 res.2.1 res.2.2

/-- Embedding of calculateMountainDistance (terrain.ts).  Distances start as
none (the Infinity fill); after the traversal, finite distances are divided
by the maximum finite distance and unreached triangles become 1.0.  In the
corner where the maximum is 0 the source skips the division and leaves the
Infinity entries in place; the embedding renders those entries as 1 as well.
Returns the distance list, the peak list and the next ambient draw index. -/
def calculateMountainDistance (mesh : VoronoiMesh) (cfg : MapConfig)
    (mo : MathOracle) (no : NoiseOracle) (r : AmbientStream) (i : ℕ) :
    List ℚ × List ℕ × ℕ :=
  let peaks := mountainPeaks mesh cfg no
  let d0 := (List.range mesh.numTriangles).map
    (fun t => if t ∈ peaks then some (0 : ℚ) else none)
  let q0 := peaks.foldl (fun q t => pqPush q t 0) []
  let fuel := 4 * mesh.numTriangles + 4
  let res := mdLoop mesh cfg.jaggedness mo r fuel d0 (List.replicate mesh.numTriangles false) q0 i
  let maxDist := res.1.foldl
    (fun (m : ℚ) d => match d with | some v => max m v | none => m) 0
  let distances :=
    if 0 < maxDist then
      res.1.map (fun d => match d with | some v => v / maxDist | none => 1)
    else
      res.1.map (fun d => match d with | some v => v | none => 1)
  (distances, peaks, res.2)

/-- Embedding of generateContinentMask (terrain.ts).  The continent and
island centers consume consecutive draws of the seed-derived continentpos
RNG, three per center. -/
def generateContinentMask (mesh : VoronoiMesh) (cfg : MapConfig)
    (mo : MathOracle) (no : NoiseOracle) : List ℚ :=
  let noise2D := no (cfg.seed ++ "-continents")
  let rng := rngStream (cfg.seed ++ "-continentpos")
  let numContinents :=
    (max 1 (min 3 ⌊mo.sqrt ((cfg.width : ℚ) * (cfg.height : ℚ)) / 300⌋)).toNat
  let continents := (List.range numContinents).map
    (fun i => (0.15 + rng (3 * i) * (1 - 0.15 * 2),
               0.15 + rng (3 * i + 1) * (1 - 0.15 * 2),
               0.5 + rng (3 * i + 2) * 0.5))
  let numIslands := ⌊cfg.islandFrequency * 10⌋.toNat
  let base := 3 * numContinents
  let islands := (List.range numIslands).map
    (fun i => (rng (base + 3 * i), rng (base + 3 * i + 1),
               0.1 + rng (base + 3 * i + 2) * 0.2))
  let centers := continents ++ islands
  (List.range mesh.numTriangles).map (fun t =>
    if mesh.boundary t then 0
    else
      let nx := mesh.x_of_t t / mesh.width
      let ny := mesh.y_of_t t / mesh.height
      let dists := centers.map (fun c =>
        let stretch := 1 + 0.5 * noise2D c.1 c.2.1
        let dx := (nx - c.1) * stretch
        let dy := (ny - c.2.1) / stretch
        mo.sqrt (dx * dx + dy * dy) / c.2.2)
      match dists.foldl
        (fun (m : Option ℚ) d =>
          match m with | none => some d | some v => some (min v d)) none with
      | none => 0
      | some minDist =>
        let edgeNoise :=
          noise2D (nx * 2) (ny * 2) * 0.04 + noise2D (nx * 4) (ny * 4) * 0.02 +
          noise2D (nx * 8) (ny * 8) * 0.01
        let value := mo.pow (max 0 (1 - minDist + edgeNoise)) 1.5
        if cfg.oceanRatio < value then value else 0)

/-- Raw (pre-normalization) elevation of one non-boundary triangle in
generateElevation (terrain.ts): continent mask, mountain contribution and
roughness-scaled terrain noise, with the deep-water multiplier. -/
def rawElevation (mesh : VoronoiMesh) (continentMask mountainDistance : List ℚ)
    (nd : NoiseData) (cfg : MapConfig) (mo : MathOracle) (t : ℕ) : ℚ :=
  let p := mesh.centers.getD t ⟨0, 0⟩
  let nx := p.x / mesh.width
  let noiseIndex := (Int.tmod ⌊nx * 1024⌋ 1024).toNat
  let terrainNoise := nd.elevation noiseIndex
  let waterValue := nd.waterNoise noiseIndex
  let roughnessValue := nd.roughness noiseIndex
  let mountainDist := mountainDistance.getD t 0
  let mountainValue := 1 - mountainDist
  let mountainContribution := mo.pow mountainValue 2 * cfg.mountainHeight
  let elevation := continentMask.getD t 0 * 0.6 + mountainContribution * 0.5 +
    terrainNoise * roughnessValue * 0.3
  if waterValue < 0.3 then elevation * (waterValue * 3) else elevation

/-- Values of a per-triangle list restricted to the non-boundary triangles,
the set over which generateElevation tracks its minimum and maximum. -/
def trackedVals (l : List ℚ) (isB : ℕ → Bool) (n : ℕ) : List ℚ :=
  (((List.range n).filter (fun t => ! isB t)).map (fun t => l.getD t 0))

/-- Per-triangle raw elevations of generateElevation before normalization:
0 for boundary triangles, the combined formula otherwise.  The JS code
tracks min and max of the non-boundary entries of this list by folding from
plus and minus Infinity; the Option-valued min?/max? of generateElevation
below is the total rendering of that fold, and in both the source and the
embedding no rescaling happens when the tracked set is empty or the range is
zero. -/
def rawElevList (mesh : VoronoiMesh) (continentMask mountainDistance : List ℚ)
    (nd : NoiseData) (cfg : MapConfig) (mo : MathOracle) : List ℚ :=
  (List.range mesh.numTriangles).map (fun t =>
    if mesh.boundary t then 0
    else rawElevation mesh continentMask mountainDistance nd cfg mo t)

/-- Embedding of generateElevation (terrain.ts), continued: boundary
triangles get raw elevation 0 and are skipped by the min/max tracking; when
the tracked range is positive every entry, boundary ones included, is
rescaled by (e - min) / (max - min). -/
def generateElevation (mesh : VoronoiMesh) (continentMask mountainDistance : List ℚ)
    (nd : NoiseData) (cfg : MapConfig) (mo : MathOracle) : List ℚ :=
  let raw := rawElevList mesh continentMask mountainDistance nd cfg mo
  let tracked := trackedVals raw mesh.boundary mesh.numTriangles
  match tracked.min?, tracked.max? with
  | some mn, some mx =>
    if 0 < mx - mn then raw.map (fun e => (e - mn) / (mx - mn)) else raw
  | _, _ => raw

/-- Embedding of generateTemperature (climate.ts). -/
def generateTemperature (mesh : VoronoiMesh) (elevation_t : List ℚ)
    (cfg : MapConfig) (mo : MathOracle) (no : NoiseOracle) : List ℚ :=
  let noise2D := no (cfg.seed ++ "-temperature")
  (List.range mesh.numTriangles).map (fun t =>
    let nx := mesh.x_of_t t / mesh.width
    let ny := mesh.y_of_t t / mesh.height
    let latitude := |ny - 0.5| * 2
    let temp := 1 - mo.pow latitude 1.2
    let elevationAboveSea := max 0 (elevation_t.getD t 0 - cfg.seaLevel)
    let temp2 := temp - elevationAboveSea * 0.6
    let temp3 :=
      if elevation_t.getD t 0 < cfg.seaLevel then temp2 * 0.8 + 0.2 else temp2
    let temp4 := temp3 + noise2D (nx * 8) (ny * 8) * 0.05
    max 0 (min 1 temp4))

/-- Embedding of calculateWindOrder (climate.ts): triangle indices sorted
ascending by the projection of the centroid on the wind vector; the JS sort
is stable, so ties keep index order. -/
def calculateWindOrder (mesh : VoronoiMesh) (cfg : MapConfig)
    (mo : MathOracle) : List ℕ :=
  let windAngleRad := cfg.windAngleDeg * mo.pi / 180
  let windX := mo.cos windAngleRad
  let windY := mo.sin windAngleRad
  let proj := fun t => mesh.x_of_t t * windX + mesh.y_of_t t * windY
  sortStable (fun a b => decide (proj a < proj b)) (List.range mesh.numTriangles)

/-- Neighbor loop of one triangle in calculateMoisture: upwind neighbors add
moisture, rising air adds orographic rainfall and a strong rise subtracts the
rain-shadow term; the moisture and rainfall arrays are threaded exactly as
the in-place updates of the source. -/
def moistureNeighborLoop (mesh : VoronoiMesh) (seaLevel raininess rainShadow : ℚ)
    (elevation_t : List ℚ) (t : ℕ) (nwX nwY : ℚ) :
    List ℤ → List ℚ × List ℚ → List ℚ × List ℚ
  | [], acc => acc
  | n :: rest, acc =>
    if n = -1 then
      moistureNeighborLoop mesh seaLevel raininess rainShadow elevation_t t nwX nwY rest acc
    else
      let nb := n.toNat
      let dx := mesh.x_of_t t - mesh.x_of_t nb
      let dy := mesh.y_of_t t - mesh.y_of_t nb
      let dotProduct := dx * nwX + dy * nwY
      if 0 < dotProduct then
        let moist := acc.1
        let rain := acc.2
        let neighborElevation := elevation_t.getD nb 0
        let currentElevation := elevation_t.getD t 0
        let moist2 := moist.set t (moist.getD t 0 + moist.getD nb 0 * 0.2)
        if neighborElevation < currentElevation then
          let elevationDiff := currentElevation - neighborElevation
          let rainfallAmount := moist2.getD nb 0 * raininess *
            min 1 (elevationDiff * 5) *
            (if seaLevel < currentElevation then 1 else 0.3)
          let rain2 := rain.set t (rain.getD t 0 + rainfallAmount)
          if 0.1 < elevationDiff then
            let shadowStrength := min 0.9 (rainShadow * elevationDiff * 2)
            let moist3 := moist2.set t
              (moist2.getD t 0 - moist2.getD nb 0 * shadowStrength)
            moistureNeighborLoop mesh seaLevel raininess rainShadow elevation_t t nwX nwY rest (moist3, rain2)
          else
            moistureNeighborLoop mesh seaLevel raininess rainShadow elevation_t t nwX nwY rest (moist2, rain2)
        else
          moistureNeighborLoop mesh seaLevel raininess rainShadow elevation_t t nwX nwY rest (moist2, rain)
      else
        moistureNeighborLoop mesh seaLevel raininess rainShadow elevation_t t nwX nwY rest acc

/-- Embedding of calculateMoisture (climate.ts): ocean triangles start at
moisture 1 and land at 0.1; triangles are processed in wind order with a
turbulence-perturbed normalized wind; after the neighbor pass the moisture is
clamped, oceans reset to 1 and land gains evaporation from its rainfall;
finally rainfall is divided by its maximum when positive. -/
def calculateMoisture (mesh : VoronoiMesh) (elevation_t : List ℚ)
    (windOrder : List ℕ) (cfg : MapConfig) (mo : MathOracle)
    (no : NoiseOracle) : List ℚ × List ℚ :=
  let turbulenceNoise := no (cfg.seed ++ "-windturb")
  let windAngleRad := cfg.windAngleDeg * mo.pi / 180
  let windX := mo.cos windAngleRad
  let windY := mo.sin windAngleRad
  let moist0 := (List.range mesh.numTriangles).map
    (fun t => if elevation_t.getD t 0 < cfg.seaLevel then (1 : ℚ) else 0.1)
  let rain0 := List.replicate mesh.numTriangles (0 : ℚ)
  let res := windOrder.foldl (fun (acc : List ℚ × List ℚ) t =>
    if mesh.boundary t then acc
    else if elevation_t.getD t 0 < cfg.seaLevel - 0.1 then acc
    else
      let nx := mesh.x_of_t t / mesh.width
      let ny := mesh.y_of_t t / mesh.height
      let turbulence := turbulenceNoise (nx * 5) (ny * 5) * 0.2
      let adjustedWindX := windX + turbulence * windY
      let adjustedWindY := windY - turbulence * windX
      let windLength := mo.sqrt
        (adjustedWindX * adjustedWindX + adjustedWindY * adjustedWindY)
      let nwX := adjustedWindX / windLength
      let nwY := adjustedWindY / windLength
      let step := moistureNeighborLoop mesh cfg.seaLevel cfg.raininess
        cfg.rainShadow elevation_t t nwX nwY (mesh.nbrs t) acc
      let moistA := step.1
      let rainA := step.2
      let moistB := moistA.set t (max 0 (min 1 (moistA.getD t 0)))
      if elevation_t.getD t 0 < cfg.seaLevel then
        (moistB.set t 1, rainA)
      else if 0 < rainA.getD t 0 then
        (moistB.set t
          (min 1 (moistB.getD t 0 + rainA.getD t 0 * cfg.evaporation * 0.3)), rainA)
      else (moistB, rainA)) (moist0, rain0)
  let maxRainfall := res.2.foldl max 0
  if 0 < maxRainfall then (res.1, res.2.map (fun x => x / maxRainfall))
  else (res.1, res.2)

/-- First pass of calculateDownslope (climate.ts): each triangle points at
its strictly lowest neighbor, scanning the slots in order, or -1 when no
neighbor is strictly lower. -/
def downslopeInit (mesh : VoronoiMesh) (elevation_t : List ℚ) : List ℤ :=
  (List.range mesh.numTriangles).map (fun t =>
    ((mesh.nbrs t).foldl (fun (acc : ℤ × ℚ) n =>
      if n = -1 then acc
      else if elevation_t.getD n.toNat 0 < acc.2 then (n, elevation_t.getD n.toNat 0)
      else acc) (-1, elevation_t.getD t 0)).1)

/-- Neighbor scan of one popped triangle in the sink-resolution search of
calculateDownslope: the first non-visited neighbor whose downslope is already
set is returned; the earlier ones are pushed with their elevation as
priority. -/
def sinkScan (ds : List ℤ) (elevation_t : List ℚ) (visited : List Bool) :
    List ℤ → PQ → Option ℕ × PQ
  | [], q => (none, q)
  | n :: rest, q =>
    if n = -1 ∨ visited.getD n.toNat false then sinkScan ds elevation_t visited rest q
    else if ds.getD n.toNat (-1) ≠ -1 then (some n.toNat, q)
    else sinkScan ds elevation_t visited rest (pqPush q n.toNat (elevation_t.getD n.toNat 0))

/-- Elevation-ordered search of calculateDownslope that finds, for one sink,
a triangle with a defined downslope; returns the found triangle as the new
downslope value of the sink or -1 when the search exhausts. -/
def sinkBFS (mesh : VoronoiMesh) (elevation_t : List ℚ) (ds : List ℤ) :
    ℕ → PQ → List Bool → ℤ
  | 0, _, _ => -1
  | fuel + 1, q, visited =>
    match pqPop q with
    | none => -1
    | some (cur, q2) =>
      if visited.getD cur false then sinkBFS mesh elevation_t ds fuel q2 visited
      else
        let visited2 := visited.set cur true
        match sinkScan ds elevation_t visited2 (mesh.nbrs cur) q2 with
        | (some n, _) => (n : ℤ)
        | (none, q3) => sinkBFS mesh elevation_t ds fuel q3 visited2

/-- Embedding of calculateDownslope (climate.ts): the strict lowest-neighbor
pass followed by sink resolution in triangle-index order against the evolving
downslope array. -/
def calculateDownslope (mesh : VoronoiMesh) (elevation_t : List ℚ) : List ℤ :=
  let ds0 := downslopeInit mesh elevation_t
  (List.range mesh.numTriangles).foldl (fun ds t =>
    if ds.getD t (-1) = -1 then
      ds.set t (sinkBFS mesh elevation_t ds (4 * mesh.numTriangles + 4)
        [(t, 0)] (List.replicate mesh.numTriangles false))
    else ds) ds0

/-- Flow initialization of calculateFlowAccumulation: land triangles get
rainfall scaled by the rivers parameter, with the snowmelt bonus above
elevation seaLevel + 0.5. -/
def flowInit (mesh : VoronoiMesh) (elevation_t rainfall_t : List ℚ)
    (cfg : MapConfig) : List ℚ :=
  (List.range mesh.numTriangles).map (fun t =>
    if cfg.seaLevel ≤ elevation_t.getD t 0 then
      let f := rainfall_t.getD t 0 * cfg.rivers
      let elevationAboveSea := elevation_t.getD t 0 - cfg.seaLevel
      if 0.5 < elevationAboveSea then f * (1 + (elevationAboveSea - 0.5)) else f
    else 0)

/-- River trace of calculateFlowAccumulation: follow downslope from the
source until a sink or boundary, water, or a cycle; the Bool is false exactly
when the path was rejected for a cycle.  The fuel passed by the caller
exceeds the triangle count, and the no-repeat check bounds the path length by
it, so the fuel never runs out. -/
def traceRiver (mesh : VoronoiMesh) (elevation_t : List ℚ) (ds : List ℤ)
    (sea : ℚ) : ℕ → List ℕ → ℕ → List ℕ × Bool
  | 0, path, _ => (path, false)
  | fuel + 1, path, current =>
    let next := ds.getD current (-1)
    if next < 0 ∨ mesh.boundary next.toNat then (path, true)
    else if elevation_t.getD next.toNat 0 < sea then (path, true)
    else if next.toNat ∈ path then (path, false)
    else traceRiver mesh elevation_t ds sea fuel (path ++ [next.toNat]) next.toNat

/-- River-source qualification threshold of calculateFlowAccumulation
(climate.ts line 355): a fixed constant; the riverMinFlow configuration field
is destructured there but used only in a log statement. -/
def riverSourceThreshold : ℚ := 0.1

/-- Embedding of the normal (non-throwing) body of calculateFlowAccumulation
(climate.ts): initialize flow, accumulate in stable descending elevation
order, collect river paths from qualified sources, sort by flow descending
and keep at most 100. -/
def calculateFlowAccumulation (mesh : VoronoiMesh)
    (elevation_t rainfall_t : List ℚ) (downslope_t : List ℤ)
    (cfg : MapConfig) : FlowResult :=
  let flow0 := flowInit mesh elevation_t rainfall_t cfg
  let order := sortStable
    (fun a b => decide (elevation_t.getD b 0 < elevation_t.getD a 0))
    (List.range mesh.numTriangles)
  let flow := order.foldl (fun fl t =>
    let downstream := downslope_t.getD t (-1)
    if 0 ≤ downstream ∧ ¬ (mesh.boundary t = true) then
      fl.set downstream.toNat (fl.getD downstream.toNat 0 + fl.getD t 0)
    else fl) flow0
  let paths := (List.range mesh.numTriangles).foldl (fun ps t =>
    if cfg.seaLevel ≤ elevation_t.getD t 0 ∧
        riverSourceThreshold ≤ flow.getD t 0 ∧ 0.5 < elevation_t.getD t 0 then
      let res := traceRiver mesh elevation_t downslope_t cfg.seaLevel
        (mesh.numTriangles + 2) [t] t
      if res.2 ∧ 3 < res.1.length then
        ps ++ [RiverPath.mk res.1 t (flow.getD t 0)]
      else ps
    else ps) []
  let sorted := sortStable (fun a b => decide (b.flow < a.flow)) paths
  ⟨flow, sorted.take 100⟩

namespace Biome

/-- BiomeType.OCEAN (types.ts). -/
def OCEAN : ℕ := 0

/-- BiomeType.DEEP_OCEAN. -/
def DEEP_OCEAN : ℕ := 1

/-- BiomeType.SHALLOW_OCEAN. -/
def SHALLOW_OCEAN : ℕ := 2

/-- BiomeType.SHALLOW_WATER. -/
def SHALLOW_WATER : ℕ := 3

/-- BiomeType.BEACH. -/
def BEACH : ℕ := 4

/-- BiomeType.SNOW. -/
def SNOW : ℕ := 5

/-- BiomeType.TUNDRA. -/
def TUNDRA : ℕ := 6

/-- BiomeType.TAIGA. -/
def TAIGA : ℕ := 7

/-- BiomeType.GRASSLAND. -/
def GRASSLAND : ℕ := 8

/-- BiomeType.SHRUBLAND. -/
def SHRUBLAND : ℕ := 9

/-- BiomeType.TEMPERATE_DECIDUOUS_FOREST. -/
def TEMPERATE_DECIDUOUS_FOREST : ℕ := 10

/-- BiomeType.TEMPERATE_RAIN_FOREST. -/
def TEMPERATE_RAIN_FOREST : ℕ := 11

/-- BiomeType.TEMPERATE_DESERT. -/
def TEMPERATE_DESERT : ℕ := 12

/-- BiomeType.SUBTROPICAL_DESERT. -/
def SUBTROPICAL_DESERT : ℕ := 13

/-- BiomeType.TROPICAL_SEASONAL_FOREST. -/
def TROPICAL_SEASONAL_FOREST : ℕ := 14

/-- BiomeType.TROPICAL_RAIN_FOREST. -/
def TROPICAL_RAIN_FOREST : ℕ := 15

/-- BiomeType.MOUNTAIN. -/
def MOUNTAIN : ℕ := 16

end Biome

/-- Embedding of hasNeighborBelow (biomes.ts): some real neighbor of t is
below sea level. -/
def hasNeighborBelow (mesh : VoronoiMesh) (t : ℕ) (elevation_t : List ℚ)
    (seaLevel : ℚ) : Bool :=
  (mesh.nbrs t).any
    (fun n => n != -1 && decide (elevation_t.getD n.toNat 0 < seaLevel))

/-- Per-triangle classification of assignBiomes (biomes.ts), including the
coastal BEACH override of the lowland branch (whose temperature conditional
writes BEACH in both arms in the source). -/
def classifyBiome (mesh : VoronoiMesh) (elevation_t moisture_t temperature_t : List ℚ)
    (seaLevel : ℚ) (t : ℕ) : ℕ :=
  let elevation := elevation_t.getD t 0
  let moisture := moisture_t.getD t 0
  let temperature := temperature_t.getD t 0
  if mesh.boundary t then Biome.OCEAN
  else if elevation < seaLevel then
    let depthRatio := (seaLevel - elevation) / seaLevel
    if depthRatio < 0.1 then Biome.SHALLOW_WATER
    else if depthRatio < 0.3 then Biome.SHALLOW_OCEAN
    else if depthRatio < 0.7 then Biome.OCEAN
    else Biome.DEEP_OCEAN
  else
    let elevationAboveSea := elevation - seaLevel
    if 0.7 < elevationAboveSea then
      if temperature < 0.2 then Biome.SNOW
      else if temperature < 0.4 then Biome.TUNDRA
      else Biome.MOUNTAIN
    else if 0.4 < elevationAboveSea then
      if temperature < 0.2 then Biome.TUNDRA
      else if temperature < 0.5 then
        if moisture < 0.4 then Biome.SHRUBLAND else Biome.TAIGA
      else if moisture < 0.4 then Biome.TEMPERATE_DESERT
      else if moisture < 0.7 then Biome.TEMPERATE_DECIDUOUS_FOREST
      else Biome.TEMPERATE_RAIN_FOREST
    else
      let lowland :=
        if temperature < 0.2 then
          if moisture < 0.4 then Biome.TUNDRA else Biome.TAIGA
        else if temperature < 0.6 then
          if moisture < 0.3 then Biome.TEMPERATE_DESERT
          else if moisture < 0.5 then Biome.GRASSLAND
          else if moisture < 0.7 then Biome.TEMPERATE_DECIDUOUS_FOREST
          else Biome.TEMPERATE_RAIN_FOREST
        else
          if moisture < 0.3 then Biome.SUBTROPICAL_DESERT
          else if moisture < 0.5 then Biome.GRASSLAND
          else if moisture < 0.7 then Biome.TROPICAL_SEASONAL_FOREST
          else Biome.TROPICAL_RAIN_FOREST
      let isCoastal := hasNeighborBelow mesh t elevation_t seaLevel
      if isCoastal ∧ elevationAboveSea < 0.05 then Biome.BEACH else lowland

/-- Embedding of the normal (non-throwing) body of assignBiomes
(biomes.ts). -/
def assignBiomes (mesh : VoronoiMesh) (elevation_t moisture_t temperature_t : List ℚ)
    (seaLevel : ℚ) : List ℕ :=
  (List.range mesh.numTriangles).map
    (classifyBiome mesh elevation_t moisture_t temperature_t seaLevel)

/-- Spatial-hash lookup shared by the three nearest-centroid rasterizers of
the source (the loops of rasterizeElevation, rasterizeClimate and
rasterizeBiomes are textually identical): the nearest triangle, by centroid
distance, among the buckets of the 3x3 cell block around the pixel, scanning
buckets row-major and each bucket in ascending triangle order, with a strict
comparison so the first minimum wins. -/
def nearestTriangle (mesh : VoronoiMesh) (width height x y : ℕ) : ℕ :=
  let gridWidth := (width + 19) / 20
  let gridHeight := (height + 19) / 20
  let cy := y / 20
  let cx := x / 20
  let inBucket := fun (by2 bx : ℕ) (t : ℕ) =>
    ⌊mesh.x_of_t t / 20⌋ = (bx : ℤ) ∧ ⌊mesh.y_of_t t / 20⌋ = (by2 : ℤ) ∧
    (bx : ℤ) < gridWidth ∧ (by2 : ℤ) < gridHeight
  let nys := (List.range (min (gridHeight - 1) (cy + 1) + 1 - (cy - 1))).map
    (fun k => cy - 1 + k)
  let nxs := (List.range (min (gridWidth - 1) (cx + 1) + 1 - (cx - 1))).map
    (fun k => cx - 1 + k)
  let candidates := nys.flatMap (fun ny => nxs.flatMap (fun nx =>
    (List.range mesh.numTriangles).filter (fun t => decide (inBucket ny nx t))))
  (candidates.foldl (fun (best : Option ℚ × ℕ) t =>
    let dx := mesh.x_of_t t - (x : ℚ)
    let dy := mesh.y_of_t t - (y : ℚ)
    let distSquared := dx * dx + dy * dy
    match best.1 with
    | none => (some distSquared, t)
    | some m => if distSquared < m then (some distSquared, t) else best)
    (none, 0)).2

/-- Nearest-centroid projection of a per-triangle field onto the pixel grid,
as performed identically by rasterizeElevation, rasterizeClimate and
rasterizeBiomes. -/
def rasterizeField (mesh : VoronoiMesh) (field : List α) (dflt : α)
    (width height : ℕ) : List (List α) :=
  (List.range height).map (fun y => (List.range width).map
    (fun x => field.getD (nearestTriangle mesh width height x y) dflt))

/-- Embedding of rasterizeElevation (terrain.ts). -/
def rasterizeElevation (mesh : VoronoiMesh) (elevation_t : List ℚ)
    (width height : ℕ) : List (List ℚ) :=
  rasterizeField mesh elevation_t 0 width height

/-- Embedding of rasterizeClimate (climate.ts): the moisture and temperature
grids, both read from the same nearest triangle per pixel. -/
def rasterizeClimate (mesh : VoronoiMesh) (moisture_t temperature_t : List ℚ)
    (width height : ℕ) : List (List ℚ) × List (List ℚ) :=
  (rasterizeField mesh moisture_t 0 width height,
   rasterizeField mesh temperature_t 0 width height)

/-- Embedding of rasterizeBiomes (biomes.ts). -/
def rasterizeBiomes (mesh : VoronoiMesh) (biomes_t : List ℕ)
    (width height : ℕ) : List (List ℕ) :=
  rasterizeField mesh biomes_t 0 width height

/-- Write one value into a row-major rational grid. -/
def set2D (g : List (List ℚ)) (y x : ℕ) (v : ℚ) : List (List ℚ) :=
  g.set y ((g.getD y []).set x v)

/-- Read one value of a row-major rational grid. -/
def get2D (g : List (List ℚ)) (y x : ℕ) : ℚ :=
  (g.getD y []).getD x 0

/-- Soft-disk stamp of one river point in rasterizeRivers: every pixel of the
square of the given radius whose distance is within scaledWidth receives the
maximum of its value and the falloff intensity times scaledWidth. -/
def stampRiverPoint (mo : MathOracle) (width height : ℕ) (x y : ℤ)
    (scaledWidth : ℚ) (radius : ℕ) (g : List (List ℚ)) : List (List ℚ) :=
  let offsets := (List.range (2 * radius + 1)).map (fun k => (k : ℤ) - radius)
  offsets.foldl (fun g dy =>
    offsets.foldl (fun g dx =>
      let nx := x + dx
      let ny := y + dy
      if nx < 0 ∨ (width : ℤ) ≤ nx ∨ ny < 0 ∨ (height : ℤ) ≤ ny then g
      else
        let dist := mo.sqrt ((dx : ℚ) * dx + (dy : ℚ) * dy)
        if dist ≤ scaledWidth then
          let intensity := mo.pow (1 - dist / scaledWidth) 0.8
          set2D g ny.toNat nx.toNat
            (max (get2D g ny.toNat nx.toNat) (intensity * scaledWidth))
        else g) g) g

/-- Embedding of rasterizeRivers (climate.ts): every river path paints a
soft disk at each of its triangle centroids, the disk width growing with the
position factor along the path. -/
def rasterizeRivers (mesh : VoronoiMesh) (riverPaths : List RiverPath)
    (width height : ℕ) (cfg : MapConfig) (mo : MathOracle) : List (List ℚ) :=
  let g0 := (List.range height).map (fun _ => (List.range width).map (fun _ => (0 : ℚ)))
  riverPaths.foldl (fun g rp =>
    if rp.triangles.length < 2 then g
    else
      (List.range rp.triangles.length).foldl (fun g (i : ℕ) =>
        let t := rp.triangles.getD i 0
        let positionFactor := (i : ℚ) / rp.triangles.length
        let accumulatedFlow := rp.flow * (0.2 + 0.8 * positionFactor)
        let x := ⌊mesh.x_of_t t⌋
        let y := ⌊mesh.y_of_t t⌋
        if x < 0 ∨ (width : ℤ) ≤ x ∨ y < 0 ∨ (height : ℤ) ≤ y then g
        else
          let scaledWidth := max 1 (mo.log (1 + accumulatedFlow * 10) * cfg.riverWidth * 5)
          let radius := (max 1 ⌈scaledWidth⌉).toNat
          stampRiverPoint mo width height x y scaledWidth radius g) g) g0

/-- Embedding of generateMap (index.ts): the six pipeline stages composed in
source order.  The ambient Math.random stream is global in JS, so the draw
counter of generatePoints is passed on to calculateMountainDistance. -/
def generateMap (cfg : MapConfig) (mo : MathOracle) (no : NoiseOracle)
    (delaunator : DelaunatorOracle) (r : AmbientStream) : MapData :=
  let pdR := generatePoints cfg mo no r 0
  let mesh := createMesh pdR.1 delaunator cfg.width cfg.height
  let nd := precalculateNoise cfg no
  let mdR := calculateMountainDistance mesh cfg mo no r pdR.2
  let continentMask := generateContinentMask mesh cfg mo no
  let elevation_t := generateElevation mesh continentMask mdR.1 nd cfg mo
  let temperature_t := generateTemperature mesh elevation_t cfg mo no
  let windOrder := calculateWindOrder mesh cfg mo
  let mr := calculateMoisture mesh elevation_t windOrder cfg mo no
  let downslope_t := calculateDownslope mesh elevation_t
  let fr := calculateFlowAccumulation mesh elevation_t mr.2 downslope_t cfg
  let biomes_t := assignBiomes mesh elevation_t mr.1 temperature_t cfg.seaLevel
  let climateGrids := rasterizeClimate mesh mr.1 temperature_t cfg.width cfg.height
  { width := cfg.width
    height := cfg.height
    elevation := rasterizeElevation mesh elevation_t cfg.width cfg.height
    moisture := climateGrids.1
    temperature := climateGrids.2
    biomes := rasterizeBiomes mesh biomes_t cfg.width cfg.height
    rivers := rasterizeRivers mesh fr.riverPaths cfg.width cfg.height cfg mo }

/-- Embedding of calculateFlowAccumulation including its try/catch wrapper:
when the body raises (modelled by the bodyThrows flag), the catch handler of
climate.ts lines 415-421 returns a zero flow array and an empty river list as
an ordinary result value. -/
def calculateFlowAccumulationRun (mesh : VoronoiMesh)
    (elevation_t rainfall_t : List ℚ) (downslope_t : List ℤ) (cfg : MapConfig)
    (bodyThrows : Bool) : FlowResult :=
  if bodyThrows then ⟨List.replicate mesh.numTriangles 0, []⟩
  else calculateFlowAccumulation mesh elevation_t rainfall_t downslope_t cfg

/-- Embedding of assignBiomes including its try/catch wrapper: when the body
raises, the catch handler of biomes.ts lines 146-149 returns an array filled
with BiomeType.OCEAN as an ordinary result value. -/
def assignBiomesRun (mesh : VoronoiMesh)
    (elevation_t moisture_t temperature_t : List ℚ) (seaLevel : ℚ)
    (bodyThrows : Bool) : List ℕ :=
  if bodyThrows then List.replicate mesh.numTriangles Biome.OCEAN
  else assignBiomes mesh elevation_t moisture_t temperature_t seaLevel

/-- Embedding of createMesh including its try/catch wrapper: when the body
raises with a message (for instance from the Delaunator library), the catch
handler of mesh.ts rethrows a typed Error whose message carries the
diagnostic. -/
def createMeshRun (pd : PointsData) (delaunator : DelaunatorOracle)
    (width height : ℚ) (thrown : Option String) : Except String VoronoiMesh :=
  match thrown with
  | some msg => Except.error ("Failed to create mesh: " ++ msg)
  | none => Except.ok (createMesh pd delaunator width height)

/-- Math oracle for the concrete runs below: its sqrt is the identity, which
agrees with Math.sqrt at the only arguments where these runs consult it
(namely 1); its pow returns the base, which agrees with Math.pow at the
base-0 arguments the runs consult; log, cos, sin and pi are 0 (legal values,
never consulted at an argument whose exact value matters below). -/
def idMath : MathOracle :=
  ⟨fun q => q, fun b _ => b, fun _ => 0, fun _ => 0, fun _ => 0, 0⟩

/-- Noise oracle returning 0 everywhere (a legal value of the simplex noise
range [-1, 1]). -/
def zeroNoise : NoiseOracle :=
  fun _ _ _ => 0

/-- Ambient stream whose draws are all 0. -/
def stream0 : AmbientStream :=
  fun _ => 0

/-- Ambient stream whose draws are all 3/4. -/
def stream34 : AmbientStream :=
  fun _ => 3/4

/-- Lighting record used by the concrete configurations. -/
def exLighting : LightingConfig :=
  ⟨false, 0, 0, 0⟩

/-- Concrete configuration for the determinism counterexample: a 2 by 2 map
with biomeDensity 30, so the cell size is sqrt(1) = 1, and pointDeviation
9/20 so the ambient jitter moves the single interior point. -/
def c1cfg : MapConfig :=
  { seed := "s", width := 2, height := 2, seaLevel := 2/5, biomeDensity := 30,
    mountainFrequency := 0, hillFrequency := 0, islandFrequency := 0,
    pointDeviation := 9/20, oceanRatio := 3/10, jaggedness := 0,
    mountainHeight := 1/2, windAngleDeg := 0, raininess := 1, rainShadow := 1,
    evaporation := 1, riverWidth := 1, rivers := 1, riverMinFlow := 1/10,
    showVoronoi := false, lighting := exLighting }

/-- Concrete configuration with an empty seed (out of the documented range)
and otherwise benign values, for the missing-validation counterexample. -/
def c5cfg : MapConfig :=
  { c1cfg with seed := "", pointDeviation := 0 }

/-- Concrete configuration with biomeDensity 30 on a 4 by 4 map: the derived
cell size is sqrt(16 / (16 * 30 / 30)) = 1, below the documented clamp
threshold of 2. -/
def c7cfg : MapConfig :=
  { c1cfg with seed := "x", width := 4, height := 4, pointDeviation := 0 }

/-- Three-triangle mesh for the normalization counterexample: triangle 0 is
boundary, triangles 1 and 2 are interior. -/
def c2mesh : VoronoiMesh :=
  { points := [], triangles := [], halfedges := [], numPoints := 0,
    numTriangles := 3, numHalfedges := 0,
    is_boundary_t := [true, false, false],
    neighbors := [[1, -1, -1], [0, 2, -1], [1, -1, -1]],
    centers := [⟨0, 0⟩, ⟨0, 0⟩, ⟨0, 0⟩], width := 10, height := 10 }

/-- Continent mask input for the normalization counterexample (values inside
the [0, 1] range the mask stage produces). -/
def c2mask : List ℚ := [0, 1/2, 1]

/-- Mountain distances for the normalization counterexample: all 1, so the
mountain contribution vanishes. -/
def c2dist : List ℚ := [1, 1, 1]

/-- Noise data for the normalization counterexample: zero terrain and
roughness noise and water noise 1/2 (above the 0.3 deep-water cut). -/
def c2noise : NoiseData :=
  ⟨fun _ => 0, fun _ => 0, fun _ => 1/2, fun _ => 0⟩

/-- Property asserted by the normalization claim for a final elevation list:
minimum 0, maximum 1, and every entry within [0, 1]. -/
def elevationNormalizedClaim (l : List ℚ) : Prop :=
  l.min? = some 0 ∧ l.max? = some 1 ∧ ∀ x ∈ l, 0 ≤ x ∧ x ≤ 1

/-- Six-triangle mesh for the drainage counterexample: triangles 0 and 1 are
interior and form a basin (0 lowest, 1 its lowest real neighbor), triangles
2 to 5 are the higher boundary ring; neighbor lists are symmetric. -/
def c3mesh : VoronoiMesh :=
  { points := [], triangles := [], halfedges := [], numPoints := 0,
    numTriangles := 6, numHalfedges := 0,
    is_boundary_t := [false, false, true, true, true, true],
    neighbors := [[1, 2, 3], [0, 4, 5], [0, -1, -1], [0, -1, -1],
                  [1, -1, -1], [1, -1, -1]],
    centers := [⟨0, 0⟩, ⟨0, 0⟩, ⟨0, 0⟩, ⟨0, 0⟩, ⟨0, 0⟩, ⟨0, 0⟩],
    width := 10, height := 10 }

/-- Elevations for the drainage counterexample: all land (sea level 2/5),
with triangle 0 the unique sink. -/
def c3elev : List ℚ := [1/2, 3/5, 7/10, 7/10, 4/5, 4/5]

/-- Iterated downslope successor: the chain t, downslope(t),
downslope(downslope(t)), with -1 absorbing. -/
def downslopeIter (ds : List ℤ) (t : ℕ) : ℕ → ℤ
  | 0 => (t : ℤ)
  | k + 1 =>
    let u := downslopeIter ds t k
    if 0 ≤ u then ds.getD u.toNat (-1) else -1

/-- Drainage property of one triangle as the claim states it: some iterate of
the downslope chain is a valid index that is below sea or boundary. -/
def drainsToOutlet (mesh : VoronoiMesh) (elevation_t : List ℚ) (sea : ℚ)
    (ds : List ℤ) (t : ℕ) : Prop :=
  ∃ k, 0 ≤ downslopeIter ds t k ∧
    (elevation_t.getD (downslopeIter ds t k).toNat 0 < sea ∨
     mesh.boundary (downslopeIter ds t k).toNat = true)

/-- Ten-triangle mesh for the river counterexample.  Triangle 0 and its three
real neighbors 1, 2, 3 form an equal-elevation plateau of sinks; triangle 4
is a higher triangle adjacent to 1 (not to 0) that drains to the below-sea
boundary triangle 5; triangles 6, 7, 8 form the upstream valley and 9 is a
side triangle of 4.  Neighbor lists are symmetric and boundary flags agree
with the -1 slots. -/
def c4mesh : VoronoiMesh :=
  { points := [], triangles := [], halfedges := [], numPoints := 0,
    numTriangles := 10, numHalfedges := 0,
    is_boundary_t := [false, false, true, true, false, true, false, true, true, true],
    neighbors := [[1, 2, 3], [0, 4, 6], [0, -1, -1], [0, -1, -1],
                  [1, 5, 9], [4, -1, -1], [1, 7, 8], [6, -1, -1],
                  [6, -1, -1], [4, -1, -1]],
    centers := [⟨0, 0⟩, ⟨0, 0⟩, ⟨0, 0⟩, ⟨0, 0⟩, ⟨0, 0⟩, ⟨0, 0⟩, ⟨0, 0⟩,
                ⟨0, 0⟩, ⟨0, 0⟩, ⟨0, 0⟩],
    width := 10, height := 10 }

/-- Elevations for the river counterexample (sea level 2/5): the plateau
0..3 at 3/5, triangle 4 at 7/10, the below-sea outlet 5 at 3/10, and the
upstream valley 6, 7, 8 at 4/5, 19/20, 1, with 9 at 9/10. -/
def c4elev : List ℚ := [3/5, 3/5, 3/5, 3/5, 7/10, 3/10, 4/5, 19/20, 1, 9/10]

/-- Uniform unit rainfall for the river counterexample. -/
def c4rain : List ℚ := [1, 1, 1, 1, 1, 1, 1, 1, 1, 1]

/-- Configuration for the river counterexample: sea level 2/5 and river
scale 1. -/
def c4cfg : MapConfig := c1cfg

/-- Delaunator output of the witness triangulation: two triangles glued
along one edge (halfedges 0 and 3 are opposite, the rest are boundary). -/
def c9del : DelaunatorOracle :=
  fun _ => ⟨[0, 1, 2, 0, 2, 3], [3, -1, -1, 0, -1, -1]⟩

/-- Point data of the witness triangulation: the unit square. -/
def c9pd : PointsData :=
  ⟨[⟨0, 0⟩, ⟨1, 0⟩, ⟨1, 1⟩, ⟨0, 1⟩], []⟩

/-- Interior sampling emits exactly one point per grid site, whatever the
ambient draws are: the jitter is clamped back into the rectangle and never
changes the point count. -/
theorem genPointsInterior_points_length (r : AmbientStream)
    (n2 nM : ℚ → ℚ → ℚ) (cs pd w h mf : ℚ) :
    ∀ (sites : List (ℚ × ℚ)) (i : ℕ),
      (genPointsInterior r n2 nM cs pd w h mf sites i).1.length = sites.length := by
  intro sites
  induction sites with
  | nil => intro i; rfl
  | cons sy rest ih =>
    intro i
    obtain ⟨x, y⟩ := sy
    simp only [genPointsInterior]
    split
    · simpa using ih (i + 3)
    · simpa using ih (i + 2)

/-- C1, counterexample.  The claim asserts that two generateMap calls with
the same configuration produce bit-for-bit identical MapData because every
draw of randomness during generation is determined by the seed alone.  The
draws are not: with the same configuration (seed "s") and the same noise
and sqrt oracles, two ambient Math.random streams make the first stage
invoked by generateMap return different point sets, because the interior
jitter of generatePoints draws from Math.random rather than from the seeded
RNG, and the differing jittered point feeds every later stage through the
mesh. -/
theorem C1_counterexample :
    generatePoints c1cfg idMath zeroNoise stream0 0 ≠
      generatePoints c1cfg idMath zeroNoise stream34 0 := by
  with_unfolding_all decide

/-- C1, amended.  Generation is not determined by the seed alone: the
interior-point jitter and mountain-candidate selection of generatePoints
(and the jaggedness perturbation of calculateMountainDistance) consume
ambient unseeded Math.random draws, so two runs with equal configuration can
differ bit for bit; what is independent of the ambient stream and draw
position is the sampled point count and the boundary point prefix of
generatePoints. -/
theorem C1_ambient_scope (cfg : MapConfig) (mo : MathOracle) (no : NoiseOracle)
    (r1 r2 : AmbientStream) (i1 i2 : ℕ) :
    (generatePoints cfg mo no r1 i1).1.points.length =
      (generatePoints cfg mo no r2 i2).1.points.length ∧
    ∃ rest1 rest2,
      (generatePoints cfg mo no r1 i1).1.points =
        createBoundaryPoints cfg.width cfg.height (cellSizeOf cfg mo / 2) ++ rest1 ∧
      (generatePoints cfg mo no r2 i2).1.points =
        createBoundaryPoints cfg.width cfg.height (cellSizeOf cfg mo / 2) ++ rest2 := by
  constructor
  · simp only [generatePoints]
    simp [genPointsInterior_points_length]
  · exact ⟨_, _, rfl, rfl⟩

/-- Iterates of the downslope list produced for the drainage counterexample
never leave the two-triangle basin cycle. -/
theorem c3_iter_cycle (k : ℕ) :
    downslopeIter [1, 0, 0, 0, 1, 1] 0 k = 0 ∨
      downslopeIter [1, 0, 0, 0, 1, 1] 0 k = 1 := by
  induction k with
  | zero => left; rfl
  | succ k ih => rcases ih with h | h <;> simp [downslopeIter, h]

/-- C3.  After calculateDownslope, triangle 0 of the counterexample mesh is
a land, non-boundary triangle whose downslope chain is the cycle 0, 1, 0,
1, ... and therefore never reaches a below-sea or boundary triangle: the
sink resolution routed the sink 0 to its neighbor 1, whose own downslope is
0. -/
theorem C3_downslope_cycle :
    (2/5 : ℚ) ≤ c3elev.getD 0 0 ∧ c3mesh.boundary 0 = false ∧
    calculateDownslope c3mesh c3elev = [1, 0, 0, 0, 1, 1] ∧
    ¬ drainsToOutlet c3mesh c3elev (2/5) (calculateDownslope c3mesh c3elev) 0 := by
  have hds : calculateDownslope c3mesh c3elev = [1, 0, 0, 0, 1, 1] := by with_unfolding_all decide
  refine ⟨by with_unfolding_all decide, by with_unfolding_all decide, hds, ?_⟩
  rw [hds]
  rintro ⟨k, hk, hout⟩
  rcases c3_iter_cycle k with h | h <;> rw [h] at hout <;> revert hout <;> with_unfolding_all decide

/-- C4.  On the counterexample input, the retained river paths all pass
through the plateau sink 0, whose resolved downslope is triangle 4, not one
of its mesh neighbors [1, 2, 3]: the retained path [8, 6, 1, 0, 4] has the
consecutive pair (0, 4) that is not a neighbor pair, refuting the claim that
consecutive entries of every retained path are mesh neighbors. -/
theorem C4_nonneighbor_path :
    (calculateFlowAccumulation c4mesh c4elev c4rain
        (calculateDownslope c4mesh c4elev) c4cfg).riverPaths.map
        RiverPath.triangles =
      [[8, 6, 1, 0, 4], [7, 6, 1, 0, 4], [6, 1, 0, 4]] ∧
    c4mesh.nbrs 0 = [1, 2, 3] ∧ ¬ ((4 : ℤ) ∈ c4mesh.nbrs 0) := by
  exact ⟨by with_unfolding_all decide, by with_unfolding_all decide, by with_unfolding_all decide⟩

/-- C5, counterexample.  The configuration c5cfg has an empty seed, which
the claim says is detected up front with a typed error and no partial
output; instead the first stage invoked by generateMap runs normally and
produces a full point sample. -/
theorem C5_counterexample :
    c5cfg.seed = "" ∧
    generatePoints c5cfg idMath zeroNoise stream0 0 =
      (⟨[⟨0, 0⟩, ⟨1/2, 0⟩, ⟨1, 0⟩, ⟨3/2, 0⟩, ⟨2, 0⟩, ⟨2, 1/2⟩, ⟨2, 1⟩,
         ⟨2, 3/2⟩, ⟨2, 2⟩, ⟨3/2, 2⟩, ⟨1, 2⟩, ⟨1/2, 2⟩, ⟨0, 2⟩, ⟨0, 3/2⟩,
         ⟨0, 1⟩, ⟨0, 1/2⟩, ⟨1/2, 1/2⟩], []⟩, 2) := by
  exact ⟨rfl, by with_unfolding_all decide⟩

/-- States of the empty-seed RNG stay at zero forever. -/
theorem rngState_empty (n : ℕ) : rngState "" n = 0 := by
  induction n with
  | zero => decide
  | succ n ih => rw [rngState, ih]; decide

/-- C5, amended.  generateMap performs no up-front configuration
validation: a configuration with an empty seed is processed normally by the
pipeline, whose seed-derived RNG degenerates to the constant-zero stream
(hashSeed of the empty string is 0, a fixed point of the xorshift step), and
no typed configuration error exists. -/
theorem C5_no_validation :
    hashSeed "" = 0 ∧ (∀ n, rngStream "" n = 0) ∧
    (generatePoints c5cfg idMath zeroNoise stream0 0).1.points ≠ [] := by
  refine ⟨by with_unfolding_all decide, fun n => ?_, by with_unfolding_all decide⟩
  simp [rngStream, rngState_empty]

/-- C6, counterexample.  When the body of calculateFlowAccumulation raises,
the catch handler returns a zero flow array and no rivers as an ordinary
success value, and when the body of assignBiomes raises its catch handler
returns an all-OCEAN biome array: internal invariant violations in these
stages are swallowed and replaced by substituted default data, not surfaced
as a typed failure. -/
theorem C6_counterexample :
    calculateFlowAccumulationRun c2mesh [0, 0, 0] [0, 0, 0] [-1, -1, -1]
        c1cfg true = ⟨[0, 0, 0], []⟩ ∧
    assignBiomesRun c2mesh [0, 0, 0] [0, 0, 0] [0, 0, 0] (2/5) true =
      [0, 0, 0] := by
  exact ⟨by with_unfolding_all decide, by with_unfolding_all decide⟩

/-- C6, amended.  Of the three cited stages only createMesh surfaces an
internal error as a typed failure with a diagnostic; calculateFlowAccumulation
answers any internal error with zero flow and no rivers, and assignBiomes
answers it with an all-OCEAN array, both ordinary success values. -/
theorem C6_catch_behavior :
    (∀ mesh e r d cfg, calculateFlowAccumulationRun mesh e r d cfg true =
      ⟨List.replicate mesh.numTriangles 0, []⟩) ∧
    (∀ mesh e m tp s, assignBiomesRun mesh e m tp s true =
      List.replicate mesh.numTriangles Biome.OCEAN) ∧
    (∀ pd del w h msg, createMeshRun pd del w h (some msg) =
      Except.error ("Failed to create mesh: " ++ msg)) := by
  exact ⟨fun _ _ _ _ _ => rfl, fun _ _ _ _ _ => rfl, fun _ _ _ _ _ => rfl⟩

/-- C7.  generatePoints applies no clamp to the derived cell size: on the
4 by 4 configuration with biomeDensity 30 the cell size is 1, below the
documented minimum of 2, and the sampler emits boundary points at the raw
spacing 1/2 and the full 41-point sample of the unclamped grid. -/
theorem C7_unclamped_cellSize :
    cellSizeOf c7cfg idMath = 1 ∧ cellSizeOf c7cfg idMath < 2 ∧
    (generatePoints c7cfg idMath zeroNoise stream0 0).1.points.take 3 =
      [⟨0, 0⟩, ⟨1/2, 0⟩, ⟨1, 0⟩] ∧
    (generatePoints c7cfg idMath zeroNoise stream0 0).1.points.length = 41 := by
  exact ⟨by with_unfolding_all decide, by with_unfolding_all decide, by with_unfolding_all decide, by with_unfolding_all decide⟩

/-- C2, counterexample.  On a mesh whose non-boundary raw elevations are all
positive (raw values 3/10 and 3/5 here, from mask values 1/2 and 1 with no
mountain and no noise), generateElevation rescales the boundary triangle
from its raw 0 to (0 - min) / (max - min) = -1: the returned list is
[-1, 0, 1], so the minimum over all triangles is not 0 and the boundary
elevation leaves [0, 1]. -/
theorem C2_counterexample :
    generateElevation c2mesh c2mask c2dist c2noise c1cfg idMath = [-1, 0, 1] ∧
    ¬ elevationNormalizedClaim
        (generateElevation c2mesh c2mask c2dist c2noise c1cfg idMath) := by
  refine ⟨by with_unfolding_all decide, ?_⟩
  unfold elevationNormalizedClaim
  with_unfolding_all decide

/-- Reading a mapped list at an index below the length maps the read. -/
theorem getD_map_lt (l : List ℚ) (f : ℚ → ℚ) (t : ℕ) (h : t < l.length) :
    (l.map f).getD t 0 = f (l.getD t 0) := by
  rw [List.getD_eq_getElem?_getD, List.getD_eq_getElem?_getD,
    List.getElem?_map, List.getElem?_eq_getElem h]
  rfl

/-- Tracked (non-boundary) values of a mapped list are the mapped tracked
values, whenever the index range is covered. -/
theorem trackedVals_map (l : List ℚ) (f : ℚ → ℚ) (isB : ℕ → Bool) (n : ℕ)
    (h : n ≤ l.length) :
    trackedVals (l.map f) isB n = (trackedVals l isB n).map f := by
  unfold trackedVals
  rw [List.map_map]
  refine List.map_congr_left fun t ht => ?_
  have htn : t < n := List.mem_range.mp (List.mem_of_mem_filter ht)
  exact getD_map_lt l f t (lt_of_lt_of_le htn h)

/-- Folding min commutes with a positive-slope affine map. -/
theorem foldl_min_affine (a r : ℚ) (hr : 0 < r) :
    ∀ (l : List ℚ) (x : ℚ),
      (l.map (fun v => (v - a) / r)).foldl min ((x - a) / r) =
        (l.foldl min x - a) / r := by
  intro l
  induction l with
  | nil => intro x; rfl
  | cons y ys ih =>
    intro x
    simp only [List.map_cons, List.foldl_cons]
    rw [show min ((x - a) / r) ((y - a) / r) = (min x y - a) / r by
      rw [min_div_div_right hr.le, min_sub_sub_right]]
    exact ih (min x y)

/-- Folding max commutes with a positive-slope affine map. -/
theorem foldl_max_affine (a r : ℚ) (hr : 0 < r) :
    ∀ (l : List ℚ) (x : ℚ),
      (l.map (fun v => (v - a) / r)).foldl max ((x - a) / r) =
        (l.foldl max x - a) / r := by
  intro l
  induction l with
  | nil => intro x; rfl
  | cons y ys ih =>
    intro x
    simp only [List.map_cons, List.foldl_cons]
    rw [show max ((x - a) / r) ((y - a) / r) = (max x y - a) / r by
      rw [max_div_div_right hr.le, max_sub_sub_right]]
    exact ih (max x y)

/-- List minimum commutes with a positive-slope affine map. -/
theorem min?_map_affine (l : List ℚ) (a r : ℚ) (hr : 0 < r) :
    (l.map (fun v => (v - a) / r)).min? =
      l.min?.map (fun v => (v - a) / r) := by
  cases l with
  | nil => rfl
  | cons x xs =>
    show some ((xs.map (fun v => (v - a) / r)).foldl min ((x - a) / r)) =
      some ((xs.foldl min x - a) / r)
    rw [foldl_min_affine a r hr xs x]

/-- List maximum commutes with a positive-slope affine map. -/
theorem max?_map_affine (l : List ℚ) (a r : ℚ) (hr : 0 < r) :
    (l.map (fun v => (v - a) / r)).max? =
      l.max?.map (fun v => (v - a) / r) := by
  cases l with
  | nil => rfl
  | cons x xs =>
    show some ((xs.map (fun v => (v - a) / r)).foldl max ((x - a) / r)) =
      some ((xs.foldl max x - a) / r)
    rw [foldl_max_affine a r hr xs x]

/-- C2, amended.  After Stage 3 normalization the minimum over the
non-boundary triangles is 0 and their maximum is 1 whenever the raw
non-boundary range is positive; boundary triangles are rescaled from their
raw 0 by the same affine map and may leave [0, 1] (see the counterexample),
so the claim holds with the min and max taken over non-boundary triangles
only. -/
theorem C2_tracked_normalized (mesh : VoronoiMesh) (mask dist : List ℚ)
    (nd : NoiseData) (cfg : MapConfig) (mo : MathOracle) (mn mx : ℚ)
    (hmin : (trackedVals (rawElevList mesh mask dist nd cfg mo)
      mesh.boundary mesh.numTriangles).min? = some mn)
    (hmax : (trackedVals (rawElevList mesh mask dist nd cfg mo)
      mesh.boundary mesh.numTriangles).max? = some mx)
    (hlt : mn < mx) :
    (trackedVals (generateElevation mesh mask dist nd cfg mo)
      mesh.boundary mesh.numTriangles).min? = some 0 ∧
    (trackedVals (generateElevation mesh mask dist nd cfg mo)
      mesh.boundary mesh.numTriangles).max? = some 1 := by
  have hr : 0 < mx - mn := by linarith
  have hlen : mesh.numTriangles ≤ (rawElevList mesh mask dist nd cfg mo).length := by
    simp [rawElevList]
  have hgen : generateElevation mesh mask dist nd cfg mo =
      (rawElevList mesh mask dist nd cfg mo).map (fun e => (e - mn) / (mx - mn)) := by
    simp only [generateElevation]
    rw [hmin, hmax]
    simp [hr]
  rw [hgen, trackedVals_map _ _ _ _ hlen]
  rw [min?_map_affine _ _ _ hr, max?_map_affine _ _ _ hr, hmin, hmax]
  constructor
  · simp
  · simp [div_self hr.ne']

/-- C2, witness: on the counterexample inputs the tracked raw range is
[3/10, 3/5], and the amended theorem yields tracked minimum 0 and maximum
1. -/
theorem C2_witness :
    ((trackedVals (rawElevList c2mesh c2mask c2dist c2noise c1cfg idMath)
        c2mesh.boundary c2mesh.numTriangles).min? = some (3/10) ∧
     (trackedVals (rawElevList c2mesh c2mask c2dist c2noise c1cfg idMath)
        c2mesh.boundary c2mesh.numTriangles).max? = some (3/5) ∧
     (3/10 : ℚ) < 3/5) ∧
    ((trackedVals (generateElevation c2mesh c2mask c2dist c2noise c1cfg idMath)
        c2mesh.boundary c2mesh.numTriangles).min? = some 0 ∧
     (trackedVals (generateElevation c2mesh c2mask c2dist c2noise c1cfg idMath)
        c2mesh.boundary c2mesh.numTriangles).max? = some 1) :=
  ⟨⟨by with_unfolding_all decide, by with_unfolding_all decide,
    by with_unfolding_all decide⟩,
   C2_tracked_normalized c2mesh c2mask c2dist c2noise c1cfg idMath (3/10) (3/5)
     (by with_unfolding_all decide) (by with_unfolding_all decide)
     (by with_unfolding_all decide)⟩

/-- Reading the biome list at a valid triangle index gives the classifier
value. -/
theorem assignBiomes_getD (mesh : VoronoiMesh) (e m tp : List ℚ) (s : ℚ)
    (t : ℕ) (ht : t < mesh.numTriangles) :
    (assignBiomes mesh e m tp s).getD t 0 = classifyBiome mesh e m tp s t := by
  unfold assignBiomes
  rw [List.getD_eq_getElem?_getD, List.getElem?_map, List.getElem?_range ht]
  rfl

/-- C8.  assignBiomes classifies boundary triangles as OCEAN, and wet
triangles (elevation below seaLevel) by the depth ratio
d = (seaLevel - e) / seaLevel: SHALLOW_WATER for d below 0.1, SHALLOW_OCEAN
below 0.3, OCEAN below 0.7 and DEEP_OCEAN otherwise, exactly as the claim
states. -/
theorem C8_water_classification (mesh : VoronoiMesh) (e m tp : List ℚ)
    (s : ℚ) (t : ℕ) (ht : t < mesh.numTriangles) :
    (mesh.boundary t = true →
      (assignBiomes mesh e m tp s).getD t 0 = Biome.OCEAN) ∧
    (mesh.boundary t = false → e.getD t 0 < s →
      ((s - e.getD t 0) / s < 0.1 →
        (assignBiomes mesh e m tp s).getD t 0 = Biome.SHALLOW_WATER) ∧
      (0.1 ≤ (s - e.getD t 0) / s → (s - e.getD t 0) / s < 0.3 →
        (assignBiomes mesh e m tp s).getD t 0 = Biome.SHALLOW_OCEAN) ∧
      (0.3 ≤ (s - e.getD t 0) / s → (s - e.getD t 0) / s < 0.7 →
        (assignBiomes mesh e m tp s).getD t 0 = Biome.OCEAN) ∧
      (0.7 ≤ (s - e.getD t 0) / s →
        (assignBiomes mesh e m tp s).getD t 0 = Biome.DEEP_OCEAN)) := by
  rw [assignBiomes_getD mesh e m tp s t ht]
  constructor
  · intro hb
    simp [classifyBiome, hb]
  · intro hb he
    refine ⟨fun h1 => ?_, fun h1 h2 => ?_, fun h1 h2 => ?_, fun h1 => ?_⟩ <;>
      simp only [classifyBiome, hb, Bool.false_eq_true, if_false, if_pos he] <;>
      split_ifs <;> first | rfl | linarith

/-- C8, witness: triangle 0 of the witness mesh is boundary (hence OCEAN),
and triangle 1 with elevation 1/5 under sea level 2/5 has depth ratio 1/2,
landing in the OCEAN band. -/
theorem C8_witness :
    ((1 : ℕ) < c2mesh.numTriangles) ∧
    ((c2mesh.boundary 1 = true →
      (assignBiomes c2mesh [0, 1/5, 0] [0, 0, 0] [0, 0, 0] (2/5)).getD 1 0 =
        Biome.OCEAN) ∧
    (c2mesh.boundary 1 = false → List.getD [(0 : ℚ), 1/5, 0] 1 0 < 2/5 →
      ((2/5 - List.getD [(0 : ℚ), 1/5, 0] 1 0) / (2/5) < 0.1 →
        (assignBiomes c2mesh [0, 1/5, 0] [0, 0, 0] [0, 0, 0] (2/5)).getD 1 0 =
          Biome.SHALLOW_WATER) ∧
      (0.1 ≤ (2/5 - List.getD [(0 : ℚ), 1/5, 0] 1 0) / (2/5) →
        (2/5 - List.getD [(0 : ℚ), 1/5, 0] 1 0) / (2/5) < 0.3 →
        (assignBiomes c2mesh [0, 1/5, 0] [0, 0, 0] [0, 0, 0] (2/5)).getD 1 0 =
          Biome.SHALLOW_OCEAN) ∧
      (0.3 ≤ (2/5 - List.getD [(0 : ℚ), 1/5, 0] 1 0) / (2/5) →
        (2/5 - List.getD [(0 : ℚ), 1/5, 0] 1 0) / (2/5) < 0.7 →
        (assignBiomes c2mesh [0, 1/5, 0] [0, 0, 0] [0, 0, 0] (2/5)).getD 1 0 =
          Biome.OCEAN) ∧
      (0.7 ≤ (2/5 - List.getD [(0 : ℚ), 1/5, 0] 1 0) / (2/5) →
        (assignBiomes c2mesh [0, 1/5, 0] [0, 0, 0] [0, 0, 0] (2/5)).getD 1 0 =
          Biome.DEEP_OCEAN))) :=
  ⟨by with_unfolding_all decide,
   C8_water_classification c2mesh [0, 1/5, 0] [0, 0, 0] [0, 0, 0] (2/5) 1
     (by with_unfolding_all decide)⟩

/-- One direction of the halfedge symmetry argument: when slot j of triangle
t names u, the opposite halfedge lies in triangle u and names t back, under
the Delaunator halfedge involution. -/
theorem slot_symm (hst : List ℤ) (numT : ℕ)
    (hlen : hst.length = 3 * numT)
    (hinv : ∀ eIdx, eIdx < hst.length → 0 ≤ hst.getD eIdx (-1) →
      (hst.getD eIdx (-1)).toNat < hst.length ∧
      hst.getD (hst.getD eIdx (-1)).toNat (-1) = (eIdx : ℤ))
    (t u j : ℕ) (ht : t < numT) (hj : j < 3)
    (hslot : neighborSlot hst (3 * t + j) = (u : ℤ)) :
    (t : ℤ) ∈ neighborsOfT hst u := by
  have he : 3 * t + j < hst.length := by omega
  unfold neighborSlot at hslot
  by_cases hge : 0 ≤ hst.getD (3 * t + j) (-1)
  case neg =>
    rw [if_neg hge] at hslot
    omega
  case pos =>
    rw [if_pos hge] at hslot
    obtain ⟨hlt, hback⟩ := hinv (3 * t + j) he hge
    have hcast : ((hst.getD (3 * t + j) (-1)).toNat : ℤ) =
        hst.getD (3 * t + j) (-1) := Int.toNat_of_nonneg hge
    have hu : (hst.getD (3 * t + j) (-1)).toNat / 3 = u := by omega
    have hslotE : neighborSlot hst (hst.getD (3 * t + j) (-1)).toNat = (t : ℤ) := by
      unfold neighborSlot
      rw [hback, if_pos (Int.natCast_nonneg _)]
      omega
    have hsplit : (hst.getD (3 * t + j) (-1)).toNat % 3 = 0 ∨
        (hst.getD (3 * t + j) (-1)).toNat % 3 = 1 ∨
        (hst.getD (3 * t + j) (-1)).toNat % 3 = 2 := by omega
    unfold neighborsOfT
    rcases hsplit with h3 | h3 | h3
    · have h30 : 3 * u = (hst.getD (3 * t + j) (-1)).toNat := by omega
      rw [h30, hslotE]
      exact List.mem_cons_self _ _
    · have h31 : 3 * u + 1 = (hst.getD (3 * t + j) (-1)).toNat := by omega
      rw [h31, hslotE]
      exact List.mem_cons_of_mem _ (List.mem_cons_self _ _)
    · have h32 : 3 * u + 2 = (hst.getD (3 * t + j) (-1)).toNat := by omega
      rw [h32, hslotE]
      exact List.mem_cons_of_mem _ (List.mem_cons_of_mem _ (List.mem_cons_self _ _))

/-- Neighbor symmetry of the halfedge-derived neighbor lists, under the
Delaunator halfedge involution contract. -/
theorem neighborsOfT_symm (hst : List ℤ) (numT : ℕ)
    (hlen : hst.length = 3 * numT)
    (hinv : ∀ eIdx, eIdx < hst.length → 0 ≤ hst.getD eIdx (-1) →
      (hst.getD eIdx (-1)).toNat < hst.length ∧
      hst.getD (hst.getD eIdx (-1)).toNat (-1) = (eIdx : ℤ))
    (t u : ℕ) (ht : t < numT) (hu : u < numT) :
    ((u : ℤ) ∈ neighborsOfT hst t ↔ (t : ℤ) ∈ neighborsOfT hst u) := by
  have dir : ∀ a b : ℕ, a < numT →
      (b : ℤ) ∈ neighborsOfT hst a → (a : ℤ) ∈ neighborsOfT hst b := by
    intro a b ha hmem
    have : (b : ℤ) = neighborSlot hst (3 * a) ∨
        (b : ℤ) = neighborSlot hst (3 * a + 1) ∨
        (b : ℤ) = neighborSlot hst (3 * a + 2) := by
      simpa [neighborsOfT] using hmem
    rcases this with h | h | h
    · exact slot_symm hst numT hlen hinv a b 0 ha (by omega) h.symm
    · exact slot_symm hst numT hlen hinv a b 1 ha (by omega) h.symm
    · exact slot_symm hst numT hlen hinv a b 2 ha (by omega) h.symm
  exact ⟨dir t u ht, dir u t hu⟩

/-- Neighbor list of a mesh produced by createMesh, at a valid index. -/
theorem createMesh_nbrs (pd : PointsData) (del : DelaunatorOracle)
    (w h : ℚ) (t : ℕ) (ht : t < (createMesh pd del w h).numTriangles) :
    (createMesh pd del w h).nbrs t =
      neighborsOfT (del (pd.points.flatMap (fun p => [p.x, p.y]))).halfedges t := by
  unfold createMesh VoronoiMesh.nbrs at *
  simp only at ht ⊢
  rw [List.getD_eq_getElem?_getD, List.getElem?_map, List.getElem?_range ht]
  rfl

/-- C9.  For every mesh produced by createMesh from a Delaunator
triangulation satisfying the halfedge contract (the halfedge table has three
entries per triangle and is an involution on its non-negative entries), the
neighbor relation is symmetric: u appears in neighbors(t) exactly when t
appears in neighbors(u). -/
theorem C9_mesh_neighbor_symmetry (pd : PointsData) (del : DelaunatorOracle)
    (w h : ℚ) (t u : ℕ)
    (hlen : (del (pd.points.flatMap (fun p => [p.x, p.y]))).halfedges.length =
      3 * (createMesh pd del w h).numTriangles)
    (hinv : ∀ eIdx,
      eIdx < (del (pd.points.flatMap (fun p => [p.x, p.y]))).halfedges.length →
      0 ≤ (del (pd.points.flatMap (fun p => [p.x, p.y]))).halfedges.getD eIdx (-1) →
      ((del (pd.points.flatMap (fun p => [p.x, p.y]))).halfedges.getD eIdx
        (-1)).toNat <
        (del (pd.points.flatMap (fun p => [p.x, p.y]))).halfedges.length ∧
      (del (pd.points.flatMap (fun p => [p.x, p.y]))).halfedges.getD
        ((del (pd.points.flatMap (fun p => [p.x, p.y]))).halfedges.getD eIdx
          (-1)).toNat (-1) = (eIdx : ℤ))
    (ht : t < (createMesh pd del w h).numTriangles)
    (hu : u < (createMesh pd del w h).numTriangles) :
    ((u : ℤ) ∈ (createMesh pd del w h).nbrs t ↔
      (t : ℤ) ∈ (createMesh pd del w h).nbrs u) := by
  rw [createMesh_nbrs pd del w h t ht, createMesh_nbrs pd del w h u hu]
  exact neighborsOfT_symm _ _ hlen hinv t u ht hu

/-- C9, witness: on the two-triangle square triangulation the halfedge
contract holds and triangles 0 and 1 are mutual neighbors. -/
theorem C9_witness :
    ((c9del (c9pd.points.flatMap (fun p => [p.x, p.y]))).halfedges.length =
      3 * (createMesh c9pd c9del 1 1).numTriangles) ∧
    (∀ eIdx,
      eIdx < (c9del (c9pd.points.flatMap (fun p => [p.x, p.y]))).halfedges.length →
      0 ≤ (c9del (c9pd.points.flatMap (fun p => [p.x, p.y]))).halfedges.getD eIdx (-1) →
      ((c9del (c9pd.points.flatMap (fun p => [p.x, p.y]))).halfedges.getD eIdx
        (-1)).toNat <
        (c9del (c9pd.points.flatMap (fun p => [p.x, p.y]))).halfedges.length ∧
      (c9del (c9pd.points.flatMap (fun p => [p.x, p.y]))).halfedges.getD
        ((c9del (c9pd.points.flatMap (fun p => [p.x, p.y]))).halfedges.getD eIdx
          (-1)).toNat (-1) = (eIdx : ℤ)) ∧
    (0 < (createMesh c9pd c9del 1 1).numTriangles) ∧
    (1 < (createMesh c9pd c9del 1 1).numTriangles) ∧
    (((1 : ℤ) ∈ (createMesh c9pd c9del 1 1).nbrs 0 ↔
      (0 : ℤ) ∈ (createMesh c9pd c9del 1 1).nbrs 1)) :=
  ⟨by with_unfolding_all decide, by with_unfolding_all decide,
   by with_unfolding_all decide, by with_unfolding_all decide,
   C9_mesh_neighbor_symmetry c9pd c9del 1 1 0 1
     (by with_unfolding_all decide) (by with_unfolding_all decide)
     (by with_unfolding_all decide) (by with_unfolding_all decide)⟩

/-- Updating riverMinFlow leaves the width field unchanged. -/
theorem rmf_width (cfg : MapConfig) (v : ℚ) :
    ({ cfg with riverMinFlow := v } : MapConfig).width = cfg.width := rfl

/-- Updating riverMinFlow leaves the height field unchanged. -/
theorem rmf_height (cfg : MapConfig) (v : ℚ) :
    ({ cfg with riverMinFlow := v } : MapConfig).height = cfg.height := rfl

/-- Updating riverMinFlow leaves the seaLevel field unchanged. -/
theorem rmf_seaLevel (cfg : MapConfig) (v : ℚ) :
    ({ cfg with riverMinFlow := v } : MapConfig).seaLevel = cfg.seaLevel := rfl

/-- generatePoints never reads riverMinFlow. -/
theorem rmf_generatePoints (cfg : MapConfig) (v : ℚ) (mo : MathOracle)
    (no : NoiseOracle) (r : AmbientStream) (i : ℕ) :
    generatePoints { cfg with riverMinFlow := v } mo no r i =
      generatePoints cfg mo no r i := rfl

/-- precalculateNoise never reads riverMinFlow. -/
theorem rmf_precalculateNoise (cfg : MapConfig) (v : ℚ) (no : NoiseOracle) :
    precalculateNoise { cfg with riverMinFlow := v } no =
      precalculateNoise cfg no := rfl

/-- calculateMountainDistance never reads riverMinFlow. -/
theorem rmf_calculateMountainDistance (mesh : VoronoiMesh) (cfg : MapConfig)
    (v : ℚ) (mo : MathOracle) (no : NoiseOracle) (r : AmbientStream) (i : ℕ) :
    calculateMountainDistance mesh { cfg with riverMinFlow := v } mo no r i =
      calculateMountainDistance mesh cfg mo no r i := rfl

/-- generateContinentMask never reads riverMinFlow. -/
theorem rmf_generateContinentMask (mesh : VoronoiMesh) (cfg : MapConfig)
    (v : ℚ) (mo : MathOracle) (no : NoiseOracle) :
    generateContinentMask mesh { cfg with riverMinFlow := v } mo no =
      generateContinentMask mesh cfg mo no := rfl

/-- generateElevation never reads riverMinFlow. -/
theorem rmf_generateElevation (mesh : VoronoiMesh) (mask dist : List ℚ)
    (nd : NoiseData) (cfg : MapConfig) (v : ℚ) (mo : MathOracle) :
    generateElevation mesh mask dist nd { cfg with riverMinFlow := v } mo =
      generateElevation mesh mask dist nd cfg mo := rfl

/-- generateTemperature never reads riverMinFlow. -/
theorem rmf_generateTemperature (mesh : VoronoiMesh) (e : List ℚ)
    (cfg : MapConfig) (v : ℚ) (mo : MathOracle) (no : NoiseOracle) :
    generateTemperature mesh e { cfg with riverMinFlow := v } mo no =
      generateTemperature mesh e cfg mo no := rfl

/-- calculateWindOrder never reads riverMinFlow. -/
theorem rmf_calculateWindOrder (mesh : VoronoiMesh) (cfg : MapConfig)
    (v : ℚ) (mo : MathOracle) :
    calculateWindOrder mesh { cfg with riverMinFlow := v } mo =
      calculateWindOrder mesh cfg mo := rfl

/-- calculateMoisture never reads riverMinFlow. -/
theorem rmf_calculateMoisture (mesh : VoronoiMesh) (e : List ℚ) (wo : List ℕ)
    (cfg : MapConfig) (v : ℚ) (mo : MathOracle) (no : NoiseOracle) :
    calculateMoisture mesh e wo { cfg with riverMinFlow := v } mo no =
      calculateMoisture mesh e wo cfg mo no := rfl

/-- calculateFlowAccumulation never reads riverMinFlow: the river-source
cut is the fixed constant riverSourceThreshold. -/
theorem rmf_calculateFlowAccumulation (mesh : VoronoiMesh) (e rain : List ℚ)
    (ds : List ℤ) (cfg : MapConfig) (v : ℚ) :
    calculateFlowAccumulation mesh e rain ds { cfg with riverMinFlow := v } =
      calculateFlowAccumulation mesh e rain ds cfg := rfl

/-- rasterizeRivers never reads riverMinFlow. -/
theorem rmf_rasterizeRivers (mesh : VoronoiMesh) (rp : List RiverPath)
    (w h : ℕ) (cfg : MapConfig) (v : ℚ) (mo : MathOracle) :
    rasterizeRivers mesh rp w h { cfg with riverMinFlow := v } mo =
      rasterizeRivers mesh rp w h cfg mo := rfl

/-- C10.  Two configurations that differ only in the riverMinFlow field
produce identical MapData (with the external oracles and the ambient
Math.random stream held fixed, as in a single JS run): no pipeline stage
reads riverMinFlow, and river-source qualification uses the fixed constant
riverSourceThreshold = 0.1. -/
theorem C10_riverMinFlow_uninfluential (cfg : MapConfig) (v : ℚ)
    (mo : MathOracle) (no : NoiseOracle) (del : DelaunatorOracle)
    (r : AmbientStream) :
    generateMap { cfg with riverMinFlow := v } mo no del r =
      generateMap cfg mo no del r ∧ riverSourceThreshold = 0.1 := by
  refine ⟨?_, rfl⟩
  simp only [generateMap, rmf_width, rmf_height, rmf_seaLevel,
    rmf_generatePoints, rmf_precalculateNoise, rmf_calculateMountainDistance,
    rmf_generateContinentMask, rmf_generateElevation, rmf_generateTemperature,
    rmf_calculateWindOrder, rmf_calculateMoisture,
    rmf_calculateFlowAccumulation, rmf_rasterizeRivers]

end WorldMap

